import Mathlib

/-!
Verification of the TypeScript translator of `apollo-server-codegen`
(`src/packages/apollo-server-codegen/src/Translators/TypeScriptTranslator.ts`).

The translator is a double-dispatch visitor over an immutable IR tree of
schema definitions.  The IR node set itself is not part of the sources at
hand (only the translator is), so the node data and their thin
`translate`-dispatch methods are modelled from the specification (spec
sections 3 and 4.1); every string-building method is transcribed from the
translator source.  Literal braces of the generated TypeScript text are
written with the escapes \x7b and \x7d, and literal apostrophes with \x27.
-/

namespace ApolloTSCodegen

/-- Generation-wide configuration held by the translator.  The single
documented option controls whether enum internal values are exposed. -/
structure Options where
  __experimentalInternalEnumValueSupport : Bool

/-- Modelled from the spec: the IR type nodes (NamedType, NonNullType,
ListType) form an immutable tree; each carries only its name or base type.
CompoundType is kept separate below, as in the IR it only occurs as
`requires` clauses and entity key sets. -/
inductive Ty where
  | named (name : String)
  | nonNull (base : Ty)
  | list (base : Ty)
deriving DecidableEq, Repr

/-- The local `getName` of `translateNamedType`: the four built-in scalar
names map to host primitives, any other name passes through unchanged. -/
def getName (n : String) : String :=
  match n with
  | "Int" => "number"
  | "Boolean" => "boolean"
  | "ID" => "string"
  | "String" => "string"
  | _ => n

/-- Modelled from the spec: IR dispatch for type nodes.  A node's
`translate` calls the translator method of its own kind, threading the
contextual nullability flag; NonNullType ignores the flag passed by its
caller and renders its base with `nullable = false` (translator source,
`translateNonNullType`); NamedType and ListType render per
`translateNamedType` / `translateListType` of the translator source.
Call sites that use the IR's default nullability pass `true` explicitly. -/
def Ty.translate : Ty → Bool → String
  | .named n, nullable =>
      if nullable then "Nullable<" ++ getName n ++ ">" else getName n
  | .nonNull b, _ => Ty.translate b false
  | .list b, nullable =>
      if nullable then "Nullable<Array<" ++ Ty.translate b true ++ ">>"
      else "Array<" ++ Ty.translate b true ++ ">"

/-- `t instanceof IR.NonNullType`, as tested by `translateArgumentDefinition`. -/
def Ty.isNonNull : Ty → Bool
  | .nonNull _ => true
  | _ => false

/-- The head named type reached by stripping NonNull wrappers, if any. -/
def Ty.headName : Ty → Option String
  | .named n => some n
  | .nonNull b => Ty.headName b
  | .list _ => none

/-- One member of a CompoundType: a field name and its type. -/
structure CompoundEntry where
  name : String
  type : Ty
deriving DecidableEq, Repr

/-- A CompoundType: an inline structural record, used for `requires`
clauses and entity key sets. -/
structure CompoundType where
  types : List CompoundEntry
deriving DecidableEq, Repr

/-- `translateCompoundType` of the translator source: renders the inline
record literal, each member with the IR default nullability. -/
def translateCompoundType (t : CompoundType) : String :=
  String.join
    (["\x7b "]
      ++ t.types.map (fun e => e.name ++ ": " ++ e.type.translate true ++ ", ")
      ++ ["\x7d"])

/-- Modelled from the spec: a Description wraps optional free text and
renders as a block comment, or as the empty string when absent. The
non-empty case is `translateDescription` of the translator source. -/
def translateDescriptionOpt : Option String → String
  | none => ""
  | some d => "/**\n * " ++ String.intercalate "\n * " (d.splitOn "\n") ++ "\n */\n"

/-- Modelled from the spec: an ArgumentDefinition carries a name, a type
and a description. -/
structure ArgumentDefinition where
  description : Option String
  name : String
  type : Ty
deriving DecidableEq, Repr

/-- Modelled from the spec: a FieldDefinition carries a name, a type and a
description. -/
structure FieldDefinition where
  description : Option String
  name : String
  type : Ty
deriving DecidableEq, Repr

/-- Modelled from the spec: a ResolverDefinition carries name, argument
list, return type, description, owning parent definition, a `requires`
compound type and the two flags.  The translator only ever reads the
parent's name (`t.parent.name`), so the parent reference is modelled by
that name. -/
structure ResolverDefinition where
  description : Option String
  name : String
  arguments : List ArgumentDefinition
  type : Ty
  parentName : String
  requires : CompoundType
  isRootType : Bool
  isNotProvidedAndExternal : Bool
deriving DecidableEq, Repr

/-- Modelled from the spec: an ObjectDefinition carries name, description,
ordered field and resolver lists, the `isRootType` flag and — for the
entity variant — its list of CompoundType key sets. -/
structure ObjectDefinition where
  name : String
  description : Option String
  fields : List FieldDefinition
  resolvers : List ResolverDefinition
  isRootType : Bool
  keys : List CompoundType
deriving DecidableEq, Repr

/-- Modelled from the spec: an EnumDefinition is a name with its ordered
string values. -/
structure EnumDefinition where
  name : String
  values : List String
deriving DecidableEq, Repr

/-- Modelled from the spec: a ScalarDefinition carries only its name. -/
structure ScalarDefinition where
  name : String
deriving DecidableEq, Repr

/-- `translateArgumentDefinition` of the translator source: description,
name, then `: ` when the argument type is already a NonNullType and `?: `
otherwise, then the type forced to non-null form
(`new IR.NonNullType(t.type).translate(this)`). -/
def translateArgumentDefinition (t : ArgumentDefinition) : String :=
  String.join
    [translateDescriptionOpt t.description,
     t.name,
     if t.type.isNonNull then ": " else "?: ",
     (Ty.nonNull t.type).translate true]

/-- The `parentType` local of `translateResolverDefinition`: the parent
representation type, intersected with the rendered `requires` compound
type when that has members. -/
def resolverParentType (t : ResolverDefinition) : String :=
  t.parentName ++ "Representation<TInternalReps>"
    ++ (if t.requires.types.length != 0
        then " & " ++ translateCompoundType t.requires else "")

/-- The `argsType` local of `translateResolverDefinition`: the rendered
arguments joined by newlines inside a record literal, or the empty record
when there are none. -/
def resolverArgsType (t : ResolverDefinition) : String :=
  if t.arguments.length != 0 then
    "\x7b\n" ++ String.intercalate "\n" (t.arguments.map translateArgumentDefinition) ++ "\n\x7d"
  else "\x7b\x7d"

/-- `translateResolverDefinition` of the translator source. -/
def translateResolverDefinition (t : ResolverDefinition) : String :=
  if t.isNotProvidedAndExternal then
    t.name ++ ": never // non-resolvable: marked @external and not @provide\x27d by any fields"
  else
    String.join
      [translateDescriptionOpt t.description,
       t.name,
       if t.isRootType then ": " else "?: ",
       "(parent: " ++ resolverParentType t ++ ", args: " ++ resolverArgsType t
         ++ ", context: TContext, info: any) => PromiseOrValue<"
         ++ t.type.translate true ++ ">"]

/-- `translateFieldDefinition` of the translator source: description, name,
always-optional separator, rendered type. -/
def translateFieldDefinition (t : FieldDefinition) : String :=
  String.join
    [translateDescriptionOpt t.description, t.name, "?: ", t.type.translate true]

/-- `translateObjectDefinition` of the translator source: representation
alias, then (for non-root types only) the public field interface, then the
resolver interface. -/
def translateObjectDefinition (t : ObjectDefinition) : String :=
  String.join
    (["type " ++ t.name ++ "Representation<TInternalReps extends Record<string, any>> = Index<TInternalReps, \"" ++ t.name ++ "\", any>\n"]
      ++ (if t.isRootType then []
          else
            [translateDescriptionOpt t.description,
             "export interface " ++ t.name ++ " \x7b\n"]
            ++ t.fields.map (fun field => translateFieldDefinition field ++ "\n")
            ++ ["\n\x7d\n"])
      ++ [translateDescriptionOpt t.description,
          "export interface " ++ t.name ++ "Resolver<TContext = \x7b\x7d, TInternalReps = \x7b\x7d> \x7b\n"]
      ++ t.resolvers.map (fun resolver => translateResolverDefinition resolver ++ "\n")
      ++ ["\n\x7d\n"])

/-- `translateEntityDefinition` of the translator source: representation
alias intersecting the internal-representation lookup with the `|`-union
of the key sets, then the root type alias, then the resolver interface
with the reserved `__resolveReference` member. -/
def translateEntityDefinition (t : ObjectDefinition) : String :=
  String.join
    (["type " ++ t.name ++ "Representation<TInternalReps extends Record<string, any>> = Index<TInternalReps, \"" ++ t.name ++ "\", \x7b\x7d> & (",
      String.intercalate " | " (t.keys.map translateCompoundType),
      ")\n\n",
      translateDescriptionOpt t.description,
      "export type " ++ t.name ++ "<TInternalReps = \x7b\x7d> = " ++ t.name ++ "Representation<TInternalReps> & \x7b\n"]
      ++ t.fields.map (fun field => translateFieldDefinition field ++ "\n")
      ++ ["\n\x7d\n",
          translateDescriptionOpt t.description,
          "export interface " ++ t.name ++ "Resolver<TContext = \x7b\x7d, TInternalReps = \x7b\x7d> \x7b\n",
          "  __resolveReference?: (parent: " ++ t.name ++ "Representation<\x7b /* explicity don\x27t pass TInternalReps */ \x7d>, args: \x7b\x7d, context: TContext, info: any) => PromiseOrValue<Nullable<" ++ t.name ++ ">>\n"]
      ++ t.resolvers.map (fun resolver => translateResolverDefinition resolver ++ "\n")
      ++ ["\n\x7d\n"])

/-- Modelled from the spec: IR dispatch for object definitions — the
entity variant, distinguished by its key sets, renders through
`translateEntityDefinition`; plain object types through
`translateObjectDefinition`. -/
def ObjectDefinition.translate (t : ObjectDefinition) : String :=
  if t.keys.length != 0 then translateEntityDefinition t
  else translateObjectDefinition t

/-- `translateEnumDefinition` of the translator source. -/
def translateEnumDefinition (o : Options) (t : EnumDefinition) : String :=
  let options := String.intercalate " | " (t.values.map (fun value => "\"" ++ value ++ "\""))
  if o.__experimentalInternalEnumValueSupport then
    String.intercalate "\n"
      ["export type " ++ t.name ++ "External = " ++ options,
       "export type " ++ t.name ++ " = any"]
  else "export type " ++ t.name ++ " = " ++ options

/-- `translateScalarDefinition` of the translator source. -/
def translateScalarDefinition (t : ScalarDefinition) : String :=
  "export type " ++ t.name ++ " = any"

/-- `generateHeader` of the translator source: the fixed utility-alias
header, a pure constant. -/
def generateHeader : String :=
  "// This is a machine generated file.\n// Use \"apollo service:codegen\" to regenerate.\ntype PromiseOrValue<T> = Promise<T> | T\ntype Nullable<T> = T | null | undefined\ntype Index<Map extends Record<string, any>, Key extends string, IfMissing> = Map[Key] extends object ? Map[Key] : IfMissing\n"

/-- The entry emitted in the aggregate `Resolvers` interface for one object
type name: required for the three root operation names, optional (with
`?`) for every other name (the arrow body of `generateTopLevelResolvers`). -/
def topLevelResolverEntry (type : String) : String :=
  if type == "Query" || type == "Mutation" || type == "Subscription" then
    "  " ++ type ++ ": " ++ type ++ "Resolver<TContext, TInternalReps>"
  else
    "  " ++ type ++ "?: " ++ type ++ "Resolver<TContext, TInternalReps>"

/-- `generateTopLevelResolvers` of the translator source. -/
def generateTopLevelResolvers (o : Options) (types enums scalars : List String) : String :=
  String.intercalate "\n"
    (["export interface Resolvers<TContext = \x7b\x7d, TInternalReps = \x7b\x7d> \x7b"]
      ++ types.map topLevelResolverEntry
      ++ scalars.map (fun scalar => "  " ++ scalar ++ ": any")
      ++ (if o.__experimentalInternalEnumValueSupport then
            enums.map (fun enumName =>
              "  " ++ enumName ++ ": \x7b [external: " ++ enumName ++ "External]: any \x7d")
          else [])
      ++ ["\x7d\n"])

/-- `generate` of the translator source: header, aggregate resolvers, then
the object, enum and scalar sections, all joined with `"\n"`. -/
def generate (o : Options) (objects : List ObjectDefinition)
    (enums : List EnumDefinition) (scalars : List ScalarDefinition) : String :=
  let header := generateHeader
  let resolvers := generateTopLevelResolvers o
    (objects.map (fun d => d.name)) (enums.map (fun e => e.name))
    (scalars.map (fun s => s.name))
  let translatedObjectDefinitions :=
    String.intercalate "\n" (objects.map (fun definition => definition.translate))
  let translatedEnumDefinitions :=
    String.intercalate "\n" (enums.map (fun definition => translateEnumDefinition o definition))
  let translatedScalarDefinitions :=
    String.intercalate "\n" (scalars.map (fun definition => translateScalarDefinition definition))
  String.intercalate "\n"
    [header, resolvers, translatedObjectDefinitions,
     translatedEnumDefinitions, translatedScalarDefinitions]

/-! ## Helper notions and lemmas -/

set_option maxRecDepth 100000

/-- `p` occurs as a contiguous substring of `s`. -/
def strInfix (p s : String) : Prop := p.data <:+: s.data

instance (p s : String) : Decidable (strInfix p s) :=
  inferInstanceAs (Decidable (p.data <:+: s.data))

/-- `String.join` splits off a final fragment. -/
theorem join_append_single (l : List String) (a : String) :
    String.join (l ++ [a]) = String.join l ++ a := by
  simp [String.join, List.foldl_append]

/-- A trailing newline inside the last fragment moves out of the join. -/
theorem join_with_last (l : List String) (a : String) :
    String.join (l ++ [a ++ "\n"]) = String.join (l ++ [a]) ++ "\n" := by
  rw [join_append_single, join_append_single, String.append_assoc]

/-- The accumulator of the fold behind `String.join` hoists out. -/
theorem foldl_append_hoist (l : List String) (acc : String) :
    l.foldl (fun r s => r ++ s) acc = acc ++ String.join l := by
  induction l generalizing acc with
  | nil => simp [String.join]
  | cons a l ih =>
      show l.foldl _ (acc ++ a) = _
      rw [ih (acc ++ a),
        show String.join (a :: l) = a ++ String.join l from ih a,
        String.append_assoc]

/-- `String.join` splits off the head fragment. -/
theorem join_cons (a : String) (l : List String) :
    String.join (a :: l) = a ++ String.join l :=
  foldl_append_hoist l a

/-! ## Claims -/

/-- C1: the spec requires that an entity `ObjectDefinition` whose key-set
list is empty makes `generate` fail fast, aborting before any output.  The
code contains no validation at all: `translateEntityDefinition` applied to
an entity with no key sets renders a complete — and malformed —
declaration string whose representation alias ends in the empty
parenthesised union `& ()`, and `generate` likewise returns a complete
output string for the same input instead of aborting. -/
theorem c1_generate_does_not_fail_fast_on_empty_keys :
    translateEntityDefinition ⟨"T", none, [], [], false, []⟩ =
      "type TRepresentation<TInternalReps extends Record<string, any>> = Index<TInternalReps, \"T\", \x7b\x7d> & ()\n\nexport type T<TInternalReps = \x7b\x7d> = TRepresentation<TInternalReps> & \x7b\n\n\x7d\nexport interface TResolver<TContext = \x7b\x7d, TInternalReps = \x7b\x7d> \x7b\n  __resolveReference?: (parent: TRepresentation<\x7b /* explicity don\x27t pass TInternalReps */ \x7d>, args: \x7b\x7d, context: TContext, info: any) => PromiseOrValue<Nullable<T>>\n\n\x7d\n"
    ∧ strInfix "& ()" (translateEntityDefinition ⟨"T", none, [], [], false, []⟩)
    ∧ generate ⟨false⟩ [⟨"T", none, [], [], false, []⟩] [] [] =
      "// This is a machine generated file.\n// Use \"apollo service:codegen\" to regenerate.\ntype PromiseOrValue<T> = Promise<T> | T\ntype Nullable<T> = T | null | undefined\ntype Index<Map extends Record<string, any>, Key extends string, IfMissing> = Map[Key] extends object ? Map[Key] : IfMissing\n\nexport interface Resolvers<TContext = \x7b\x7d, TInternalReps = \x7b\x7d> \x7b\n  T?: TResolver<TContext, TInternalReps>\n\x7d\n\ntype TRepresentation<TInternalReps extends Record<string, any>> = Index<TInternalReps, \"T\", any>\nexport interface T \x7b\n\n\x7d\nexport interface TResolver<TContext = \x7b\x7d, TInternalReps = \x7b\x7d> \x7b\n\n\x7d\n\n\n" := by
  refine ⟨by rfl, by decide, by rfl⟩

/-- C2, counterexample: the claim asserts a blank line between consecutive
rendered declarations in sections 3–5.  With two enum definitions `A` and
`B` the generated output contains the two rendered enum aliases separated
by a single newline, and the first alias is never followed by a blank
line. -/
theorem c2_counterexample_enums_not_blank_separated :
    strInfix ("export type A = \"X\"" ++ "\n" ++ "export type B = \"Y\"")
      (generate ⟨false⟩ [] [⟨"A", ["X"]⟩, ⟨"B", ["Y"]⟩] [])
    ∧ ¬ strInfix ("export type A = \"X\"" ++ "\n\n")
      (generate ⟨false⟩ [] [⟨"A", ["X"]⟩, ⟨"B", ["Y"]⟩] []) := by
  constructor <;> decide

/-- C2, amended: `generate` produces the five sections in the claimed
order — fixed header, aggregate Resolvers interface, object declarations,
enum declarations, scalar declarations — but every separator, between the
sections and between consecutive rendered declarations inside sections
3–5, is a single newline.  Each object declaration itself ends with a
newline, so consecutive object declarations do show an empty line between
them, while consecutive enum and scalar declarations do not. -/
theorem c2_amended_sections_joined_by_single_newline
    (o : Options) (objects : List ObjectDefinition)
    (enums : List EnumDefinition) (scalars : List ScalarDefinition) :
    generate o objects enums scalars =
      generateHeader ++ "\n"
        ++ generateTopLevelResolvers o (objects.map (fun d => d.name))
            (enums.map (fun e => e.name)) (scalars.map (fun s => s.name)) ++ "\n"
        ++ String.intercalate "\n" (objects.map (fun d => d.translate)) ++ "\n"
        ++ String.intercalate "\n" (enums.map (fun e => translateEnumDefinition o e)) ++ "\n"
        ++ String.intercalate "\n" (scalars.map (fun s => translateScalarDefinition s))
    ∧ ∀ t : ObjectDefinition, ∃ s, t.translate = s ++ "\n" := by
  refine ⟨rfl, fun t => ?_⟩
  by_cases h : t.keys.length != 0
  · apply Exists.intro
    rw [ObjectDefinition.translate, if_pos h, translateEntityDefinition]
    rw [show ("\n\x7d\n" : String) = "\n\x7d" ++ "\n" from rfl]
    rw [join_with_last]
  · apply Exists.intro
    rw [ObjectDefinition.translate, if_neg h, translateObjectDefinition]
    rw [show ("\n\x7d\n" : String) = "\n\x7d" ++ "\n" from rfl]
    rw [join_with_last]

/-- C6: for every NamedType, rendering with `nullable = true` is exactly
the `Nullable<...>`-wrapped form of rendering with `nullable = false`, and
NonNullType ignores the contextual flag, so a doubly wrapped
`NonNullType(NonNullType(x))` renders identically to `NonNullType(x)` for
every inner type `x` and every contextual flag. -/
theorem c6_nullable_wrapping_and_nonnull_absoluteness (n : String) (b : Bool) (x : Ty) :
    Ty.translate (.named n) true = "Nullable<" ++ Ty.translate (.named n) false ++ ">"
    ∧ Ty.translate (.nonNull (.nonNull x)) b = Ty.translate (.nonNull x) b := by
  exact ⟨rfl, rfl⟩

/-- The rendering facts claimed for NamedType nodes: the four built-in
scalar names map to `number`, `boolean`, `string`, `string`; the name `n`
passes through unchanged; and the rendering is `Nullable<...>`-wrapped
exactly when the contextual flag is true. -/
def namedTypeRenderingProp (n : String) : Prop :=
  getName "Int" = "number" ∧ getName "Boolean" = "boolean"
  ∧ getName "ID" = "string" ∧ getName "String" = "string"
  ∧ getName n = n
  ∧ ∀ (m : String) (b : Bool),
      Ty.translate (.named m) b =
        (if b then "Nullable<" ++ getName m ++ ">" else getName m)

/-- C7: `Int`, `Boolean`, `ID` and `String` render as the host primitives
`number`, `boolean`, `string`, `string`; any other name renders as itself;
and the result is wrapped in the `Nullable` alias exactly when the
contextual nullable flag is true. -/
theorem c7_named_type_primitive_mapping (n : String)
    (hn : n ≠ "Int" ∧ n ≠ "Boolean" ∧ n ≠ "ID" ∧ n ≠ "String") :
    namedTypeRenderingProp n := by
  refine ⟨rfl, rfl, rfl, rfl, ?_, fun m b => rfl⟩
  unfold getName
  split <;> simp_all

/-- C7 witness: the user-defined name `Foo` satisfies the hypothesis and
the rendering facts hold for it. -/
theorem c7_named_type_primitive_mapping_witness :
    (("Foo" : String) ≠ "Int" ∧ ("Foo" : String) ≠ "Boolean"
      ∧ ("Foo" : String) ≠ "ID" ∧ ("Foo" : String) ≠ "String")
    ∧ namedTypeRenderingProp "Foo" :=
  ⟨by decide, c7_named_type_primitive_mapping "Foo" (by decide)⟩

/-- C9: with the internal-enum-value option disabled, an enum renders as a
single type alias equal to the union of its quoted value literals; with
the option enabled it renders as exactly two aliases, the `External` alias
with that literal union and the primary alias widened to `any`. -/
theorem c9_enum_rendering_by_option (t : EnumDefinition) :
    translateEnumDefinition ⟨false⟩ t =
      "export type " ++ t.name ++ " = "
        ++ String.intercalate " | " (t.values.map (fun value => "\"" ++ value ++ "\""))
    ∧ translateEnumDefinition ⟨true⟩ t =
      "export type " ++ t.name ++ "External = "
        ++ String.intercalate " | " (t.values.map (fun value => "\"" ++ value ++ "\""))
        ++ ("\n" ++ ("export type " ++ t.name ++ " = any")) := by
  constructor
  · rfl
  · show _ ++ "\n" ++ _ = _
    rw [String.append_assoc]

/-- C4: a resolver marked `isNotProvidedAndExternal` renders exactly as
the uninhabited member `name: never` followed by the fixed explanatory
comment; in particular (for any resolver name free of parentheses) the
rendering contains no parenthesis at all, hence no callable signature with
parent/args/context/info parameters. -/
theorem c4_external_not_provided_renders_never (r : ResolverDefinition)
    (h : r.isNotProvidedAndExternal = true) :
    translateResolverDefinition r =
      r.name ++ ": never // non-resolvable: marked @external and not @provide\x27d by any fields"
    ∧ ( '(' ∉ r.name.data → '(' ∉ (translateResolverDefinition r).data) := by
  have he : translateResolverDefinition r =
      r.name ++ ": never // non-resolvable: marked @external and not @provide\x27d by any fields" := by
    rw [translateResolverDefinition, if_pos h]
  refine ⟨he, fun hn hc => ?_⟩
  rw [he, String.data_append] at hc
  rcases List.mem_append.mp hc with h1 | h2
  · exact hn h1
  · exact absurd h2 (by decide)

/-- The concrete resolver used to witness C4. -/
def c4resolver : ResolverDefinition :=
  ⟨none, "shippingEstimate", [], Ty.named "Int", "Product", ⟨[]⟩, false, true⟩

/-- C4 witness: a concrete non-resolvable resolver renders as the
uninhabited member and its rendering contains no parenthesis. -/
theorem c4_external_not_provided_renders_never_witness :
    c4resolver.isNotProvidedAndExternal = true
    ∧ translateResolverDefinition c4resolver =
        c4resolver.name ++ ": never // non-resolvable: marked @external and not @provide\x27d by any fields"
    ∧ '(' ∉ (translateResolverDefinition c4resolver).data :=
  ⟨rfl,
   (c4_external_not_provided_renders_never c4resolver rfl).1,
   (c4_external_not_provided_renders_never c4resolver rfl).2 (by decide)⟩

/-- Rendering a type in non-null position never yields a string that
starts with the `Nullable<` alias, as long as the head named type (if the
type bottoms out in one) does not itself map to a name starting with
`Nullable<`. -/
theorem translate_false_no_nullable_prefix (ty : Ty)
    (h : ∀ nm, ty.headName = some nm → ¬ ("Nullable<".data <+: (getName nm).data)) :
    ¬ ("Nullable<".data <+: (Ty.translate ty false).data) := by
  induction ty with
  | named n => exact h n rfl
  | nonNull b ih => exact ih (fun nm hnm => h nm hnm)
  | list b ih =>
      intro hp
      simp only [Ty.translate, Bool.false_eq_true, if_false, String.data_append] at hp
      obtain ⟨tl, htl⟩ := hp
      simp only [List.cons_append] at htl
      injection htl with h1 _
      exact absurd h1 (by decide)

/-- The rendering facts claimed for ArgumentDefinition nodes: the member
uses the required separator exactly for NonNullType argument types, the
type itself is rendered in forced non-null form, and that rendering never
carries a top-level `Nullable<` wrapper. -/
def argumentRenderingProp (a : ArgumentDefinition) : Prop :=
  translateArgumentDefinition a =
    translateDescriptionOpt a.description ++ a.name
      ++ (if a.type.isNonNull then ": " else "?: ") ++ Ty.translate a.type false
  ∧ (∀ b : Bool, Ty.translate (.nonNull a.type) b = Ty.translate a.type false)
  ∧ ¬ ("Nullable<".data <+: (Ty.translate a.type false).data)

/-- C8: an argument renders with the required separator exactly when its
type is a NonNullType and the optional separator otherwise; in both cases
the type is rendered in non-null form (wrapped as NonNullType before
rendering), so the rendered argument type is never wrapped in the
`Nullable` alias at the top level. -/
theorem c8_argument_separator_and_forced_nonnull (a : ArgumentDefinition)
    (h : ∀ nm, a.type.headName = some nm → ¬ ("Nullable<".data <+: (getName nm).data)) :
    argumentRenderingProp a := by
  refine ⟨rfl, fun b => rfl, translate_false_no_nullable_prefix a.type h⟩

/-- The concrete argument used to witness C8. -/
def c8argument : ArgumentDefinition := ⟨none, "limit", Ty.named "Int"⟩

/-- C8 witness: a nullable `Int` argument satisfies the head-name
hypothesis and the rendering facts hold for it. -/
theorem c8_argument_separator_and_forced_nonnull_witness :
    (∀ nm, c8argument.type.headName = some nm →
      ¬ ("Nullable<".data <+: (getName nm).data))
    ∧ argumentRenderingProp c8argument := by
  have h : ∀ nm, c8argument.type.headName = some nm →
      ¬ ("Nullable<".data <+: (getName nm).data) := by
    intro nm hnm
    have h3 : some "Int" = some nm := hnm
    injection h3 with h4
    subst h4
    decide
  exact ⟨h, c8_argument_separator_and_forced_nonnull c8argument h⟩

/-- C10: the entry an object receives in the aggregate `Resolvers`
interface depends only on its name string: flipping `isRootType` leaves
the entry unchanged, and the entry is the required (no `?`) form exactly
when the name is `Query`, `Mutation` or `Subscription` — so a non-root
object named `Query` gets a required entry and a root-flagged object under
any other name gets an optional one. -/
theorem c10_aggregate_entry_classified_by_name_only (t : ObjectDefinition) (b : Bool) :
    topLevelResolverEntry
        (ObjectDefinition.mk t.name t.description t.fields t.resolvers b t.keys).name
      = topLevelResolverEntry t.name
    ∧ (topLevelResolverEntry t.name
        = "  " ++ t.name ++ ": " ++ t.name ++ "Resolver<TContext, TInternalReps>"
        ↔ (t.name = "Query" ∨ t.name = "Mutation" ∨ t.name = "Subscription")) := by
  refine ⟨rfl, ?_, ?_⟩
  · intro he
    by_contra hne
    push_neg at hne
    have hb : (t.name == "Query" || t.name == "Mutation" || t.name == "Subscription") = false := by
      simp [hne.1, hne.2.1, hne.2.2]
    rw [topLevelResolverEntry, hb] at he
    simp only [Bool.false_eq_true, if_false] at he
    have hlen := congrArg String.length he
    simp only [String.length_append] at hlen
    rw [show ("?: " : String).length = 3 from rfl,
      show (": " : String).length = 2 from rfl] at hlen
    omega
  · intro hname
    have hb : (t.name == "Query" || t.name == "Mutation" || t.name == "Subscription") = true := by
      rcases hname with h | h | h <;> simp [h]
    rw [topLevelResolverEntry, hb]
    simp

/-- The representation alias emitted for an entity: the
internal-representation lookup intersected (`&`) with the `" | "`-union of
all rendered key sets. -/
def entityRepresentationAlias (t : ObjectDefinition) : String :=
  "type " ++ t.name ++ "Representation<TInternalReps extends Record<string, any>> = Index<TInternalReps, \"" ++ t.name ++ "\", \x7b\x7d> & ("
    ++ String.intercalate " | " (t.keys.map translateCompoundType) ++ ")\n\n"

/-- Everything an entity declaration renders after its representation
alias: the root type alias and the resolver interface. -/
def entityDefinitionBody (t : ObjectDefinition) : String :=
  String.join
    ([translateDescriptionOpt t.description,
      "export type " ++ t.name ++ "<TInternalReps = \x7b\x7d> = " ++ t.name ++ "Representation<TInternalReps> & \x7b\n"]
      ++ t.fields.map (fun field => translateFieldDefinition field ++ "\n")
      ++ ["\n\x7d\n",
          translateDescriptionOpt t.description,
          "export interface " ++ t.name ++ "Resolver<TContext = \x7b\x7d, TInternalReps = \x7b\x7d> \x7b\n",
          "  __resolveReference?: (parent: " ++ t.name ++ "Representation<\x7b /* explicity don\x27t pass TInternalReps */ \x7d>, args: \x7b\x7d, context: TContext, info: any) => PromiseOrValue<Nullable<" ++ t.name ++ ">>\n"]
      ++ t.resolvers.map (fun resolver => translateResolverDefinition resolver ++ "\n")
      ++ ["\n\x7d\n"])

/-- The rendering facts claimed for entities and resolvers: the entity
declaration starts with the representation alias whose key sets are
`" | "`-joined (keys combine by OR), and a resolver with a non-empty
`requires` compound type renders its parent type intersected with the
rendered requires record by `" & "` (requires combine by AND) inside the
callable signature. -/
def entityKeysAndRequiresProp (t : ObjectDefinition) (r : ResolverDefinition) : Prop :=
  translateEntityDefinition t = entityRepresentationAlias t ++ entityDefinitionBody t
  ∧ resolverParentType r =
      r.parentName ++ "Representation<TInternalReps>"
        ++ (" & " ++ translateCompoundType r.requires)
  ∧ translateResolverDefinition r =
      translateDescriptionOpt r.description ++ r.name
        ++ (if r.isRootType then ": " else "?: ")
        ++ ("(parent: " ++ resolverParentType r ++ ", args: " ++ resolverArgsType r
            ++ ", context: TContext, info: any) => PromiseOrValue<"
            ++ Ty.translate r.type true ++ ">")

/-- C3: an entity's representation type alias intersects (`&`) the
internal-representation lookup with the union (`|`) of all its key-set
compound types, while a resolver with a non-empty `requires` compound type
intersects (`&`) it with the parent representation type in its rendered
signature — keys combine by OR, requires by AND. -/
theorem c3_keys_union_requires_intersection
    (t : ObjectDefinition) (r : ResolverDefinition)
    (hreq : r.requires.types ≠ []) (hext : r.isNotProvidedAndExternal = false) :
    entityKeysAndRequiresProp t r := by
  refine ⟨?_, ?_, ?_⟩
  · rw [translateEntityDefinition, entityRepresentationAlias, entityDefinitionBody]
    simp only [List.cons_append, List.nil_append, List.append_assoc]
    simp only [join_cons]
    simp only [String.append_assoc]
  · rw [resolverParentType, if_pos]
    rw [bne_iff_ne]
    exact fun hl => hreq (List.length_eq_zero.mp hl)
  · rw [translateResolverDefinition, if_neg]
    · rfl
    · rw [hext]
      exact Bool.false_ne_true

/-- The concrete entity used to witness C3, with the two key sets of the
spec's example (`{ id }` and `{ sku, region }`). -/
def c3entity : ObjectDefinition :=
  ⟨"Product", none, [], [],
   false,
   [⟨[⟨"id", Ty.nonNull (Ty.named "ID")⟩]⟩,
    ⟨[⟨"sku", Ty.named "String"⟩, ⟨"region", Ty.named "String"⟩]⟩]⟩

/-- The concrete resolver used to witness C3, with a one-field `requires`
compound type. -/
def c3resolver : ResolverDefinition :=
  ⟨none, "shippingEstimate", [], Ty.named "Int", "Product",
   ⟨[⟨"weight", Ty.named "Int"⟩]⟩, false, false⟩

/-- C3 witness: the hypotheses hold for the concrete entity and resolver,
and so do the rendering facts. -/
theorem c3_keys_union_requires_intersection_witness :
    c3resolver.requires.types ≠ [] ∧ c3resolver.isNotProvidedAndExternal = false
    ∧ entityKeysAndRequiresProp c3entity c3resolver :=
  ⟨by decide, rfl, c3_keys_union_requires_intersection c3entity c3resolver (by decide) rfl⟩

/-- The rendering facts claimed for root and non-root object types: a root
type renders no plain field interface (representation alias and resolver
interface only) and gets a required aggregate-interface entry; a non-root
type renders the field interface and gets an optional entry. -/
def rootObjectRenderingProp (t : ObjectDefinition) : Prop :=
  (t.isRootType = true →
    translateObjectDefinition t =
      String.join
        (["type " ++ t.name ++ "Representation<TInternalReps extends Record<string, any>> = Index<TInternalReps, \"" ++ t.name ++ "\", any>\n",
          translateDescriptionOpt t.description,
          "export interface " ++ t.name ++ "Resolver<TContext = \x7b\x7d, TInternalReps = \x7b\x7d> \x7b\n"]
          ++ t.resolvers.map (fun resolver => translateResolverDefinition resolver ++ "\n")
          ++ ["\n\x7d\n"])
    ∧ topLevelResolverEntry t.name =
        "  " ++ t.name ++ ": " ++ t.name ++ "Resolver<TContext, TInternalReps>")
  ∧ (t.isRootType = false →
    translateObjectDefinition t =
      String.join
        (["type " ++ t.name ++ "Representation<TInternalReps extends Record<string, any>> = Index<TInternalReps, \"" ++ t.name ++ "\", any>\n",
          translateDescriptionOpt t.description,
          "export interface " ++ t.name ++ " \x7b\n"]
          ++ t.fields.map (fun field => translateFieldDefinition field ++ "\n")
          ++ ["\n\x7d\n",
              translateDescriptionOpt t.description,
              "export interface " ++ t.name ++ "Resolver<TContext = \x7b\x7d, TInternalReps = \x7b\x7d> \x7b\n"]
          ++ t.resolvers.map (fun resolver => translateResolverDefinition resolver ++ "\n")
          ++ ["\n\x7d\n"])
    ∧ topLevelResolverEntry t.name =
        "  " ++ t.name ++ "?: " ++ t.name ++ "Resolver<TContext, TInternalReps>")

/-- C5: on well-formed input — where the `isRootType` flag agrees with the
name being `Query`, `Mutation` or `Subscription` — a root object type
emits no plain field interface and receives a required entry in the
aggregate Resolvers interface, while every other object type emits its
field interface and receives an optional (`?`) entry. -/
theorem c5_root_types_skip_interface_and_are_required (t : ObjectDefinition)
    (hw : t.isRootType = true ↔
      (t.name = "Query" ∨ t.name = "Mutation" ∨ t.name = "Subscription")) :
    rootObjectRenderingProp t := by
  constructor
  · intro h
    constructor
    · rw [translateObjectDefinition, h]
      simp
    · have hb : (t.name == "Query" || t.name == "Mutation" || t.name == "Subscription") = true := by
        rcases hw.mp h with hn | hn | hn <;> simp [hn]
      rw [topLevelResolverEntry, hb]
      simp
  · intro h
    constructor
    · rw [translateObjectDefinition, h]
      simp
    · have hnot : ¬ (t.name = "Query" ∨ t.name = "Mutation" ∨ t.name = "Subscription") := by
        intro hd
        rw [hw.mpr hd] at h
        exact absurd h (by decide)
      push_neg at hnot
      have hb : (t.name == "Query" || t.name == "Mutation" || t.name == "Subscription") = false := by
        simp [hnot.1, hnot.2.1, hnot.2.2]
      rw [topLevelResolverEntry, hb]
      simp

/-- The concrete root object used to witness C5. -/
def c5query : ObjectDefinition :=
  ⟨"Query", none, [], [⟨none, "me", [], Ty.named "User", "Query", ⟨[]⟩, true, false⟩], true, []⟩

/-- C5 witness: the well-formedness hypothesis holds for a root `Query`
object and the rendering facts hold for it. -/
theorem c5_root_types_skip_interface_and_are_required_witness :
    (c5query.isRootType = true ↔
      (c5query.name = "Query" ∨ c5query.name = "Mutation" ∨ c5query.name = "Subscription"))
    ∧ rootObjectRenderingProp c5query :=
  ⟨by decide, c5_root_types_skip_interface_and_are_required c5query (by decide)⟩

end ApolloTSCodegen
